import Mathlib

/-!
Shallow embedding of `src/stackit_cost_monitoring/nagios_plugin.py`.

Python floats are modelled as rationals (`ℚ`), dates as integers counting
days (so yesterday is `today - 1`), and Python exceptions as an explicit
`Except` error channel threaded through the functions that can raise.
String formatting (two-decimal fixed rendering and str of a float) is modelled by explicit
decimal renderers that agree with CPython on values whose decimal expansion
is short and exact, which covers every value these claims evaluate.
-/

/-- Exit statuses of the plugin (the `NagiosExitCodes` enum of the source). -/
inductive NagiosExitCodes
  | OK
  | WARNING
  | CRITICAL
  | UNKNOWN
  deriving DecidableEq, Repr

/-- The `value` of each enum member (`NagiosExitCodes.OK = 0`, ...). -/
def NagiosExitCodes.value : NagiosExitCodes → Nat
  | .OK => 0
  | .WARNING => 1
  | .CRITICAL => 2
  | .UNKNOWN => 3

/-- The `name` of each enum member, as used in the emitted status line. -/
def NagiosExitCodes.name : NagiosExitCodes → String
  | .OK => "OK"
  | .WARNING => "WARNING"
  | .CRITICAL => "CRITICAL"
  | .UNKNOWN => "UNKNOWN"

/-- Python exception values the plugin's control flow distinguishes:
`AuthException` and `CostApiException` come from the external collaborators,
`ValueError` from threshold validation in `get_arguments`, and a plain
`Exception` (here `genericException`) from the unexpected-date check in
`book_cost_item` and the missing-report-data check in `get_cost`. -/
inductive PyExc
  | authException (msg : String)
  | costApiException (msg : String)
  | valueError (msg : String)
  | genericException (msg : String)
  deriving DecidableEq, Repr

/-- Python str of an exception: its message. -/
def PyExc.message : PyExc → String
  | .authException m => m
  | .costApiException m => m
  | .valueError m => m
  | .genericException m => m

/-- Constant `CENTS_PER_EURO = 100` from the source. -/
def CENTS_PER_EURO : ℚ := 100

/-- Constant `DEFAULT_WARNING_EUROS = 10.0` from the source. -/
def DEFAULT_WARNING_EUROS : ℚ := 10

/-- Constant `DEFAULT_CRITICAL_EUROS = 50.0` from the source. -/
def DEFAULT_CRITICAL_EUROS : ℚ := 50

/-- The resolved configuration the reporter works with.  The first five
fields are the fields declared on the pydantic model `ParsedArguments`
(source lines 30-35).  `skip_discount` is the `--skip-discount` flag that
`do_report` reads as `self.args.skip_discount`; the source pydantic class
does NOT declare that field (see `parsedArgumentsPydanticFields` and the
theorem for claim C3), so the embedding carries it as the configuration
field the reporter's own code requires. -/
structure ParsedArguments where
  customer_account_id : String
  project_id : String
  warning : ℚ
  critical : ℚ
  sa_key_json : String
  skip_discount : Bool
  deriving DecidableEq, Repr

/-- The field names actually declared on the pydantic `BaseModel`
`ParsedArguments` in the source (lines 30-35), in declaration order.
pydantic's default handling of extra constructor arguments is to ignore
them, so any argparse result key outside this list is dropped at model
construction and attribute access for it raises `AttributeError`. -/
def parsedArgumentsPydanticFields : List String :=
  ["customer_account_id", "project_id", "warning", "critical", "sa_key_json"]

/-- The `timePeriod` of a report-data record; only its `start` date is read. -/
structure TimePeriod where
  start : Int
  deriving DecidableEq, Repr

/-- One per-day cost record from the API: a start date, a charge and a
discount, both in minor currency units (cents). -/
structure ReportData where
  timePeriod : TimePeriod
  charge : ℚ
  discount : ℚ
  deriving DecidableEq, Repr

/-- The typed cost report returned by the external `CostApi` collaborator. -/
structure CostApiItemWithDetails where
  reportData : List ReportData
  deriving DecidableEq, Repr

/-- The mutable state of a `NagiosReporter` instance: the configuration,
the two reference dates captured at construction, and the four cost
accumulators, all as set up in `NagiosReporter.__init__`. -/
structure NagiosReporter where
  args : ParsedArguments
  today : Int
  yesterday : Int
  today_cost : ℚ
  today_discounted_cost : ℚ
  yesterday_cost : ℚ
  yesterday_discounted_cost : ℚ
  deriving DecidableEq, Repr

/-- Constructor of `NagiosReporter`: capture today (UTC) and yesterday, zero the
four accumulators. -/
def NagiosReporter.init (args : ParsedArguments) (today : Int) : NagiosReporter :=
  { args := args
    today := today
    yesterday := today - 1
    today_cost := 0
    today_discounted_cost := 0
    yesterday_cost := 0
    yesterday_discounted_cost := 0 }

/-- The body of `book_cost_item`'s loop for one `report_data` record:
route charge and discount (divided by `CENTS_PER_EURO`) into the matching
day's accumulators, or raise on any other date. -/
def NagiosReporter.bookReportData (s : NagiosReporter) (report_data : ReportData) :
    Except PyExc NagiosReporter :=
  if report_data.timePeriod.start = s.today then
    Except.ok { s with
      today_cost := s.today_cost + report_data.charge / CENTS_PER_EURO
      today_discounted_cost := s.today_discounted_cost + report_data.discount / CENTS_PER_EURO }
  else if report_data.timePeriod.start = s.yesterday then
    Except.ok { s with
      yesterday_cost := s.yesterday_cost + report_data.charge / CENTS_PER_EURO
      yesterday_discounted_cost :=
        s.yesterday_discounted_cost + report_data.discount / CENTS_PER_EURO }
  else
    Except.error (PyExc.genericException
      ("CostApi returned unexpected date: " ++ toString report_data.timePeriod.start))

/-- Method `book_cost_item`: fold the loop body over the report's
records; the first unexpected date aborts the whole booking. -/
def NagiosReporter.book_cost_item (s : NagiosReporter) (cost_item : CostApiItemWithDetails) :
    Except PyExc NagiosReporter :=
  cost_item.reportData.foldlM NagiosReporter.bookReportData s

/-- Render a rational with exactly two decimal places, as CPython's
the two-decimal fixed f-string does for doubles whose value is exact at two decimals (ties
are irrelevant for such values; the embedding rounds the scaled value to
the nearest integer). -/
def format2 (q : ℚ) : String :=
  let cents : Int := Int.floor (q * 100 + 1 / 2)
  let a : Nat := cents.natAbs
  let sign : String := if cents < 0 then ("-") else ("")
  let frac : Nat := a % 100
  let fracDigits : String := (if frac < 10 then ("0") else ("")) ++ toString frac
  sign ++ toString (a / 100) ++ "." ++ fracDigits

/-- The decimal digits of a rational in `[0, 1)`, most significant first,
stopping when the expansion terminates (fuel-bounded). -/
def decimalDigits : Nat → ℚ → String
  | 0, _ => ""
  | fuel + 1, q =>
    if q = 0 then ("")
    else
      let d : Int := Int.floor (q * 10)
      toString d.natAbs ++ decimalDigits fuel (q * 10 - d)

/-- Python `str(x)` for a float `x`, for values whose decimal expansion is
short and exact (such as the thresholds `10.0` and `50.0`): integer part,
a dot, then the fractional digits, with a single `0` when the value is an
integer. -/
def pyFloatRepr (q : ℚ) : String :=
  let sign : String := if q < 0 then ("-") else ("")
  let a : ℚ := |q|
  let ip : Nat := (Int.floor a).natAbs
  let fracDigits : String := decimalDigits 17 (a - Int.floor a)
  sign ++ toString ip ++ "." ++ (if fracDigits = "" then ("0") else fracDigits)

/-- What `_finish` produces: the chosen status, the single line printed to
standard output, and the process exit code passed to `exit`. -/
structure Report where
  status : NagiosExitCodes
  stdout : String
  exit_code : Nat
  deriving DecidableEq, Repr

/-- The `perf_data` string assembled in `_finish`: the four raw
accumulators as `key=value;;;` tokens joined by single spaces. -/
def NagiosReporter.perf_data (s : NagiosReporter) : String :=
  let sep := " "
  String.intercalate sep
    ["yesterday_cost=" ++ format2 s.yesterday_cost ++ ";;;",
     "yesterday_discounted_cost=" ++ format2 s.yesterday_discounted_cost ++ ";;;",
     "today_cost=" ++ format2 s.today_cost ++ ";;;",
     "today_discounted_cost=" ++ format2 s.today_discounted_cost ++ ";;;"]

/-- The private method of the source named with a leading underscore and
here `finishReport`: print `<name>: <message> | <perf_data>` and
exit with the status's value. -/
def NagiosReporter.finishReport (s : NagiosReporter) (status : NagiosExitCodes)
    (message : String) : Report :=
  { status := status
    stdout := status.name ++ ": " ++ message ++ " | " ++ s.perf_data
    exit_code := status.value }

/-- Method `do_report`: fold the discounts into each day's total
unless `skip_discount` is set, take the maximum of the two days, compare
against the critical and then the warning threshold (both with `>=`), and
finish with the matching status, message and exit code. -/
def NagiosReporter.do_report (s : NagiosReporter) : Report :=
  let today_cost : ℚ :=
    if s.args.skip_discount then s.today_cost else s.today_cost + s.today_discounted_cost
  let yesterday_cost : ℚ :=
    if s.args.skip_discount then s.yesterday_cost
    else s.yesterday_cost + s.yesterday_discounted_cost
  let total_cost : ℚ := max today_cost yesterday_cost
  if s.args.critical ≤ total_cost then
    s.finishReport NagiosExitCodes.CRITICAL
      ("Daily costs " ++ format2 total_cost ++ " EUR >= " ++ pyFloatRepr s.args.critical ++ " EUR")
  else if s.args.warning ≤ total_cost then
    s.finishReport NagiosExitCodes.WARNING
      ("Daily costs " ++ format2 total_cost ++ " EUR >= " ++ pyFloatRepr s.args.warning ++ " EUR")
  else
    s.finishReport NagiosExitCodes.OK ("Daily costs " ++ format2 total_cost ++ " EUR")

/-- The comparison total of today's bucket: the charge sum, plus the
discount sum when discounts are not skipped (the value `do_report` binds
to its local `today_cost`). -/
def NagiosReporter.todayTotal (s : NagiosReporter) : ℚ :=
  if s.args.skip_discount then s.today_cost else s.today_cost + s.today_discounted_cost

/-- The comparison total of yesterday's bucket, as in
`NagiosReporter.todayTotal`. -/
def NagiosReporter.yesterdayTotal (s : NagiosReporter) : ℚ :=
  if s.args.skip_discount then s.yesterday_cost
  else s.yesterday_cost + s.yesterday_discounted_cost

/-- The cost `do_report` classifies: the maximum of the two day totals. -/
def NagiosReporter.reportedCost (s : NagiosReporter) : ℚ :=
  max s.todayTotal s.yesterdayTotal

/-- The command-line values as argparse delivers them, before pydantic
model construction and threshold validation. -/
structure RawArguments where
  customer_account_id : String
  project_id : String
  warning : ℚ
  critical : ℚ
  sa_key_json : String
  skip_discount : Bool
  deriving DecidableEq, Repr

/-- Function `get_arguments` after argparse: build the model, then validate the
thresholds in order (warning non-negative first, then critical strictly
above warning), raising `ValueError` with the respective message. -/
def get_arguments (raw : RawArguments) : Except PyExc ParsedArguments :=
  let parsed_arguments : ParsedArguments :=
    { customer_account_id := raw.customer_account_id
      project_id := raw.project_id
      warning := raw.warning
      critical := raw.critical
      sa_key_json := raw.sa_key_json
      skip_discount := raw.skip_discount }
  if parsed_arguments.warning < 0 then
    Except.error (PyExc.valueError ("Warning threshold must be >= 0.0"))
  else if parsed_arguments.critical ≤ parsed_arguments.warning then
    Except.error (PyExc.valueError ("Critical threshold must be > warning threshold"))
  else
    Except.ok parsed_arguments

/-- Which exceptions `main`'s `except (AuthException, CostApiException)`
clause catches. -/
def caughtByMain : PyExc → Bool
  | PyExc.authException _ => true
  | PyExc.costApiException _ => true
  | _ => false

/-- The observable outcome of one run of `main`: the lines printed to
standard output, the exit code passed to `exit` (none when an exception
escapes `main` uncaught), the escaping exception if any, and whether
`get_cost` (the external credential-loading and cost-query step) was
reached. -/
structure MainResult where
  stdout : List String
  exit_code : Option Nat
  uncaught : Option PyExc
  get_cost_called : Bool
  deriving DecidableEq, Repr

/-- What an exception raised inside `main`'s `try` block leads to: the
caught types print the UNKNOWN line and exit 3, everything else escapes. -/
def handleMainExc (get_cost_called : Bool) (e : PyExc) : MainResult :=
  if caughtByMain e then
    { stdout := ["UNKNOWN: " ++ e.message ++ " |"]
      exit_code := some NagiosExitCodes.UNKNOWN.value
      uncaught := none
      get_cost_called := get_cost_called }
  else
    { stdout := []
      exit_code := none
      uncaught := some e
      get_cost_called := get_cost_called }

/-- The source's `main`: resolve the arguments, run `get_cost` (the
external step, whose outcome is passed in as `cost_result`), book the cost
item and report.  `get_cost` is reached only when `get_arguments` returned
normally.  (Named `pluginMain` because `main` is reserved in Lean.) -/
def pluginMain (raw : RawArguments) (cost_result : Except PyExc CostApiItemWithDetails)
    (today : Int) : MainResult :=
  match get_arguments raw with
  | Except.error e => handleMainExc false e
  | Except.ok args =>
    match cost_result with
    | Except.error e => handleMainExc true e
    | Except.ok cost_item =>
      match (NagiosReporter.init args today).book_cost_item cost_item with
      | Except.error e => handleMainExc true e
      | Except.ok reporter =>
        let report := reporter.do_report
        { stdout := [report.stdout]
          exit_code := some report.exit_code
          uncaught := none
          get_cost_called := true }

/-- The per-day raw charge sum in major units: each matching record's
charge divided by `CENTS_PER_EURO`, summed. -/
def chargesOn (d : Int) (l : List ReportData) : ℚ :=
  ((l.filter (fun rd => rd.timePeriod.start == d)).map
    (fun rd => rd.charge / CENTS_PER_EURO)).sum

/-- The per-day raw discount sum in major units, as in `chargesOn`. -/
def discountsOn (d : Int) (l : List ReportData) : ℚ :=
  ((l.filter (fun rd => rd.timePeriod.start == d)).map
    (fun rd => rd.discount / CENTS_PER_EURO)).sum

/-! Supporting lemmas about booking -/

/-- Booking an empty record list changes nothing. -/
theorem chargesOn_nil (d : Int) : chargesOn d [] = 0 := rfl

/-- Booking an empty record list changes nothing. -/
theorem discountsOn_nil (d : Int) : discountsOn d [] = 0 := rfl

/-- One step of the per-day charge sum. -/
theorem chargesOn_cons (d : Int) (rd : ReportData) (l : List ReportData) :
    chargesOn d (rd :: l) =
      (if rd.timePeriod.start = d then rd.charge / CENTS_PER_EURO else 0) + chargesOn d l := by
  by_cases h : rd.timePeriod.start = d <;> simp [chargesOn, List.filter_cons, h]

/-- One step of the per-day discount sum. -/
theorem discountsOn_cons (d : Int) (rd : ReportData) (l : List ReportData) :
    discountsOn d (rd :: l) =
      (if rd.timePeriod.start = d then rd.discount / CENTS_PER_EURO else 0) + discountsOn d l := by
  by_cases h : rd.timePeriod.start = d <;> simp [discountsOn, List.filter_cons, h]

/-- Permutations of the record list leave the per-day charge sum unchanged. -/
theorem chargesOn_perm (d : Int) {l₁ l₂ : List ReportData} (h : l₁.Perm l₂) :
    chargesOn d l₁ = chargesOn d l₂ :=
  List.Perm.sum_eq (List.Perm.map _ (List.Perm.filter _ h))

/-- Permutations of the record list leave the per-day discount sum unchanged. -/
theorem discountsOn_perm (d : Int) {l₁ l₂ : List ReportData} (h : l₁.Perm l₂) :
    discountsOn d l₁ = discountsOn d l₂ :=
  List.Perm.sum_eq (List.Perm.map _ (List.Perm.filter _ h))

/-- The state `book_cost_item` produces when every record's date is the
reporter's today or yesterday: each accumulator grows by its per-day sum. -/
def bookedState (s : NagiosReporter) (l : List ReportData) : NagiosReporter :=
  { s with
    today_cost := s.today_cost + chargesOn s.today l
    today_discounted_cost := s.today_discounted_cost + discountsOn s.today l
    yesterday_cost := s.yesterday_cost + chargesOn s.yesterday l
    yesterday_discounted_cost := s.yesterday_discounted_cost + discountsOn s.yesterday l }

/-- Bind on a successful `Except` computation runs the continuation. -/
theorem except_ok_bind {ε α β : Type} (a : α) (f : α → Except ε β) :
    (Except.ok a >>= f : Except ε β) = f a := rfl

/-- Bind on a failed `Except` computation propagates the error. -/
theorem except_error_bind {ε α β : Type} (e : ε) (f : α → Except ε β) :
    (Except.error e >>= f : Except ε β) = Except.error e := rfl

/-- Folding the booking step over a list of valid-dated records succeeds
and accumulates exactly the per-day sums. -/
theorem foldlM_book_ok (l : List ReportData) : ∀ s : NagiosReporter,
    s.yesterday ≠ s.today →
    (∀ rd ∈ l, rd.timePeriod.start = s.today ∨ rd.timePeriod.start = s.yesterday) →
    List.foldlM NagiosReporter.bookReportData s l = Except.ok (bookedState s l) := by
  induction l with
  | nil =>
    intro s hne hdates
    show Except.ok s = Except.ok (bookedState s [])
    simp [bookedState, chargesOn_nil, discountsOn_nil]
  | cons rd l ih =>
    intro s hne hdates
    have hty : ¬ s.today = s.yesterday := fun h => hne h.symm
    by_cases hdt : rd.timePeriod.start = s.today
    · have step := ih
        { s with
          today_cost := s.today_cost + rd.charge / CENTS_PER_EURO
          today_discounted_cost := s.today_discounted_cost + rd.discount / CENTS_PER_EURO }
        hne (fun rd2 hm => hdates rd2 (List.mem_cons_of_mem rd hm))
      rw [List.foldlM_cons, NagiosReporter.bookReportData, if_pos hdt, except_ok_bind, step]
      simp [bookedState, chargesOn_cons, discountsOn_cons, hdt, hty, add_assoc]
    · have hd : rd.timePeriod.start = s.yesterday := by
        rcases hdates rd (List.mem_cons_self rd l) with h | h
        · exact absurd h hdt
        · exact h
      have step := ih
        { s with
          yesterday_cost := s.yesterday_cost + rd.charge / CENTS_PER_EURO
          yesterday_discounted_cost := s.yesterday_discounted_cost + rd.discount / CENTS_PER_EURO }
        hne (fun rd2 hm => hdates rd2 (List.mem_cons_of_mem rd hm))
      rw [List.foldlM_cons, NagiosReporter.bookReportData, if_neg hdt, if_pos hd, except_ok_bind,
        step]
      simp [bookedState, chargesOn_cons, discountsOn_cons, hd, hdt, hne, add_assoc]

/-- Booking on a valid-dated report: the packaged form of
`foldlM_book_ok`. -/
theorem book_cost_item_ok (s : NagiosReporter) (item : CostApiItemWithDetails)
    (hne : s.yesterday ≠ s.today)
    (hdates : ∀ rd ∈ item.reportData,
      rd.timePeriod.start = s.today ∨ rd.timePeriod.start = s.yesterday) :
    s.book_cost_item item = Except.ok (bookedState s item.reportData) :=
  foldlM_book_ok item.reportData s hne hdates

/-- If some record has an unexpected date, booking fails with the plain
`Exception` raised in `book_cost_item`, regardless of where in the list the
offending record sits. -/
theorem foldlM_book_err (l : List ReportData) : ∀ s : NagiosReporter,
    (∃ rd ∈ l, rd.timePeriod.start ≠ s.today ∧ rd.timePeriod.start ≠ s.yesterday) →
    ∃ m, List.foldlM NagiosReporter.bookReportData s l =
      Except.error (PyExc.genericException m) := by
  induction l with
  | nil =>
    intro s h
    rcases h with ⟨rd, hm, _⟩
    exact absurd hm (List.not_mem_nil rd)
  | cons rd l ih =>
    intro s h
    by_cases hdt : rd.timePeriod.start = s.today
    · rcases h with ⟨rd2, hm2, hb2⟩
      rcases List.mem_cons.mp hm2 with rfl | hm2
      · exact absurd hdt hb2.1
      · rcases ih
          { s with
            today_cost := s.today_cost + rd.charge / CENTS_PER_EURO
            today_discounted_cost := s.today_discounted_cost + rd.discount / CENTS_PER_EURO }
          ⟨rd2, hm2, hb2⟩ with ⟨m, hm⟩
        refine ⟨m, ?_⟩
        rw [List.foldlM_cons, NagiosReporter.bookReportData, if_pos hdt, except_ok_bind, hm]
    · by_cases hdy : rd.timePeriod.start = s.yesterday
      · rcases h with ⟨rd2, hm2, hb2⟩
        rcases List.mem_cons.mp hm2 with rfl | hm2
        · exact absurd hdy hb2.2
        · rcases ih
            { s with
              yesterday_cost := s.yesterday_cost + rd.charge / CENTS_PER_EURO
              yesterday_discounted_cost :=
                s.yesterday_discounted_cost + rd.discount / CENTS_PER_EURO }
            ⟨rd2, hm2, hb2⟩ with ⟨m, hm⟩
          refine ⟨m, ?_⟩
          rw [List.foldlM_cons, NagiosReporter.bookReportData, if_neg hdt, if_pos hdy,
            except_ok_bind, hm]
      · refine ⟨"CostApi returned unexpected date: " ++ toString rd.timePeriod.start, ?_⟩
        rw [List.foldlM_cons, NagiosReporter.bookReportData, if_neg hdt, if_neg hdy,
          except_error_bind]

/-- Booking records that are all dated today touches only the two today
accumulators. -/
theorem foldlM_book_today (l : List ReportData) : ∀ s : NagiosReporter,
    (∀ rd ∈ l, rd.timePeriod.start = s.today) →
    List.foldlM NagiosReporter.bookReportData s l = Except.ok
      { s with
        today_cost := s.today_cost + chargesOn s.today l
        today_discounted_cost := s.today_discounted_cost + discountsOn s.today l } := by
  induction l with
  | nil =>
    intro s hdates
    show Except.ok s = _
    simp [chargesOn_nil, discountsOn_nil]
  | cons rd l ih =>
    intro s hdates
    have hd := hdates rd (List.mem_cons_self rd l)
    have step := ih
      { s with
        today_cost := s.today_cost + rd.charge / CENTS_PER_EURO
        today_discounted_cost := s.today_discounted_cost + rd.discount / CENTS_PER_EURO }
      (fun rd2 hm => hdates rd2 (List.mem_cons_of_mem rd hm))
    rw [List.foldlM_cons, NagiosReporter.bookReportData, if_pos hd, except_ok_bind, step]
    simp [chargesOn_cons, discountsOn_cons, hd, add_assoc]

/-- Booking records that are all dated yesterday touches only the two
yesterday accumulators (when the two reference dates differ, as they do for
every reporter built by `NagiosReporter.init`). -/
theorem foldlM_book_yesterday (l : List ReportData) : ∀ s : NagiosReporter,
    s.yesterday ≠ s.today →
    (∀ rd ∈ l, rd.timePeriod.start = s.yesterday) →
    List.foldlM NagiosReporter.bookReportData s l = Except.ok
      { s with
        yesterday_cost := s.yesterday_cost + chargesOn s.yesterday l
        yesterday_discounted_cost := s.yesterday_discounted_cost + discountsOn s.yesterday l } := by
  induction l with
  | nil =>
    intro s hne hdates
    show Except.ok s = _
    simp [chargesOn_nil, discountsOn_nil]
  | cons rd l ih =>
    intro s hne hdates
    have hd := hdates rd (List.mem_cons_self rd l)
    have hdt : ¬ rd.timePeriod.start = s.today := by rw [hd]; exact hne
    have step := ih
      { s with
        yesterday_cost := s.yesterday_cost + rd.charge / CENTS_PER_EURO
        yesterday_discounted_cost := s.yesterday_discounted_cost + rd.discount / CENTS_PER_EURO }
      hne (fun rd2 hm => hdates rd2 (List.mem_cons_of_mem rd hm))
    rw [List.foldlM_cons, NagiosReporter.bookReportData, if_neg hdt, if_pos hd, except_ok_bind,
      step]
    simp [chargesOn_cons, discountsOn_cons, hd, hdt, add_assoc]

/-! Supporting lemmas about reporting and argument validation -/

/-- The report written with `reportedCost` in place of the local
`total_cost` (the two are definitionally the same value). -/
theorem do_report_eq (s : NagiosReporter) :
    s.do_report =
      if s.args.critical ≤ s.reportedCost then
        s.finishReport NagiosExitCodes.CRITICAL
          ("Daily costs " ++ format2 s.reportedCost ++ " EUR >= " ++
            pyFloatRepr s.args.critical ++ " EUR")
      else if s.args.warning ≤ s.reportedCost then
        s.finishReport NagiosExitCodes.WARNING
          ("Daily costs " ++ format2 s.reportedCost ++ " EUR >= " ++
            pyFloatRepr s.args.warning ++ " EUR")
      else
        s.finishReport NagiosExitCodes.OK
          ("Daily costs " ++ format2 s.reportedCost ++ " EUR") :=
  rfl

/-- The status chosen by `do_report` as a function of `reportedCost`. -/
theorem do_report_status (s : NagiosReporter) :
    s.do_report.status =
      if s.args.critical ≤ s.reportedCost then NagiosExitCodes.CRITICAL
      else if s.args.warning ≤ s.reportedCost then NagiosExitCodes.WARNING
      else NagiosExitCodes.OK := by
  rw [do_report_eq]
  by_cases h1 : s.args.critical ≤ s.reportedCost
  · simp [h1, NagiosReporter.finishReport]
  · by_cases h2 : s.args.warning ≤ s.reportedCost
    · simp [h1, h2, NagiosReporter.finishReport]
    · simp [h1, h2, NagiosReporter.finishReport]

/-- The exit code `do_report` passes to `exit` is always the chosen
status's enum value. -/
theorem do_report_exit_code (s : NagiosReporter) :
    s.do_report.exit_code = s.do_report.status.value := by
  rw [do_report_eq]
  by_cases h1 : s.args.critical ≤ s.reportedCost
  · simp [h1, NagiosReporter.finishReport]
  · by_cases h2 : s.args.warning ≤ s.reportedCost
    · simp [h1, h2, NagiosReporter.finishReport]
    · simp [h1, h2, NagiosReporter.finishReport]

/-- Function `get_arguments` with the let-bound model inlined. -/
theorem get_arguments_eq (raw : RawArguments) :
    get_arguments raw =
      if raw.warning < 0 then
        Except.error (PyExc.valueError ("Warning threshold must be >= 0.0"))
      else if raw.critical ≤ raw.warning then
        Except.error (PyExc.valueError ("Critical threshold must be > warning threshold"))
      else
        Except.ok
          { customer_account_id := raw.customer_account_id
            project_id := raw.project_id
            warning := raw.warning
            critical := raw.critical
            sa_key_json := raw.sa_key_json
            skip_discount := raw.skip_discount } :=
  rfl

/-- Valid thresholds make `get_arguments` succeed with the carried-over
field values. -/
theorem get_arguments_ok (raw : RawArguments) (hw : 0 ≤ raw.warning)
    (hc : raw.warning < raw.critical) :
    get_arguments raw = Except.ok
      { customer_account_id := raw.customer_account_id
        project_id := raw.project_id
        warning := raw.warning
        critical := raw.critical
        sa_key_json := raw.sa_key_json
        skip_discount := raw.skip_discount } := by
  rw [get_arguments_eq, if_neg (not_lt.mpr hw), if_neg (not_le.mpr hc)]

/-- When argument validation raises, `main` handles the exception without
ever invoking `get_cost`. -/
theorem pluginMain_args_error (raw : RawArguments)
    (cost_result : Except PyExc CostApiItemWithDetails) (today : Int) (e : PyExc)
    (h : get_arguments raw = Except.error e) :
    pluginMain raw cost_result today = handleMainExc false e := by
  unfold pluginMain
  rw [h]

/-- When `get_cost` raises after successful validation, `main` handles the
exception with `get_cost` already called. -/
theorem pluginMain_cost_error (raw : RawArguments) (today : Int) (e : PyExc)
    (args : ParsedArguments) (h : get_arguments raw = Except.ok args) :
    pluginMain raw (Except.error e) today = handleMainExc true e := by
  unfold pluginMain
  rw [h]

/-- When validation and `get_cost` both succeed, `main` books the item on
a fresh reporter and either reports or handles the booking exception. -/
theorem pluginMain_ok (raw : RawArguments) (args : ParsedArguments)
    (cost_item : CostApiItemWithDetails) (today : Int)
    (h : get_arguments raw = Except.ok args) :
    pluginMain raw (Except.ok cost_item) today =
      match (NagiosReporter.init args today).book_cost_item cost_item with
      | Except.error e => handleMainExc true e
      | Except.ok reporter =>
        { stdout := [reporter.do_report.stdout]
          exit_code := some reporter.do_report.exit_code
          uncaught := none
          get_cost_called := true } := by
  unfold pluginMain
  rw [h]

/-- Every report line of `do_report` has the shape
`<STATUS_NAME>: <message> | <perf_data>`. -/
theorem do_report_stdout_shape (s : NagiosReporter) :
    ∃ msg, s.do_report.stdout = s.do_report.status.name ++ ": " ++ msg ++ " | " ++ s.perf_data := by
  by_cases h1 : s.args.critical ≤ s.reportedCost
  · refine ⟨"Daily costs " ++ format2 s.reportedCost ++ " EUR >= " ++
      pyFloatRepr s.args.critical ++ " EUR", ?_⟩
    rw [do_report_eq, if_pos h1]
    rfl
  · by_cases h2 : s.args.warning ≤ s.reportedCost
    · refine ⟨"Daily costs " ++ format2 s.reportedCost ++ " EUR >= " ++
        pyFloatRepr s.args.warning ++ " EUR", ?_⟩
      rw [do_report_eq, if_neg h1, if_pos h2]
      rfl
    · refine ⟨"Daily costs " ++ format2 s.reportedCost ++ " EUR", ?_⟩
      rw [do_report_eq, if_neg h1, if_neg h2]
      rfl

/-! Concrete inputs used by witnesses and counterexamples -/

/-- A configuration with the default thresholds, discounts folded in. -/
def exampleArgs : ParsedArguments :=
  { customer_account_id := "A"
    project_id := "P"
    warning := 10
    critical := 50
    sa_key_json := "sa-key.json"
    skip_discount := false }

/-- The same values as argparse would deliver them. -/
def exampleRaw : RawArguments :=
  { customer_account_id := "A"
    project_id := "P"
    warning := 10
    critical := 50
    sa_key_json := "sa-key.json"
    skip_discount := false }

/-! Claim C1 -/

/-- C1: for every configuration with `warning >= 0` and
`critical > warning`, the classification of `reportedCost` in `do_report`
is a step function with inclusive lower bounds — below warning OK, in
`[warning, critical)` WARNING, at or above critical CRITICAL — and the
exit code equals the chosen status's ordinal, with OK=0, WARNING=1,
CRITICAL=2. -/
theorem C1_classification_step_function (s : NagiosReporter)
    (hw : 0 ≤ s.args.warning) (hc : s.args.warning < s.args.critical) :
    (s.reportedCost < s.args.warning → s.do_report.status = NagiosExitCodes.OK) ∧
    (s.args.warning ≤ s.reportedCost → s.reportedCost < s.args.critical →
      s.do_report.status = NagiosExitCodes.WARNING) ∧
    (s.args.critical ≤ s.reportedCost → s.do_report.status = NagiosExitCodes.CRITICAL) ∧
    s.do_report.exit_code = s.do_report.status.value ∧
    NagiosExitCodes.OK.value = 0 ∧ NagiosExitCodes.WARNING.value = 1 ∧
    NagiosExitCodes.CRITICAL.value = 2 := by
  refine ⟨?_, ?_, ?_, do_report_exit_code s, rfl, rfl, rfl⟩
  · intro h
    rw [do_report_status, if_neg (not_le.mpr (h.trans hc)), if_neg (not_le.mpr h)]
  · intro h1 h2
    rw [do_report_status, if_neg (not_le.mpr h2), if_pos h1]
  · intro h
    rw [do_report_status, if_pos h]

/-- A reporter holding the totals of the spec's first example scenario. -/
def C1state : NagiosReporter :=
  { args := exampleArgs
    today := 20000
    yesterday := 19999
    today_cost := 5
    today_discounted_cost := 0
    yesterday_cost := 2
    yesterday_discounted_cost := 0 }

/-- Witness for C1: at reported cost 5.00 against thresholds 10/50 the
classification is OK. -/
theorem C1_classification_step_function_witness :
    C1state.do_report.status = NagiosExitCodes.OK :=
  (C1_classification_step_function C1state (by with_unfolding_all decide)
    (by with_unfolding_all decide)).1 (by with_unfolding_all decide)

/-! Claim C4 -/

/-- C4: for entries all dated today or yesterday, booking succeeds, the
classified cost is the maximum of the two per-day totals, and the whole
report — status, message and performance data — is the same for every
permutation of the entry sequence. -/
theorem C4_reported_cost_max_permutation_invariant (args : ParsedArguments) (today : Int)
    (l1 l2 : List ReportData) (hperm : l1.Perm l2)
    (hdates : ∀ rd ∈ l1, rd.timePeriod.start = today ∨ rd.timePeriod.start = today - 1) :
    ∃ s1 s2,
      (NagiosReporter.init args today).book_cost_item ⟨l1⟩ = Except.ok s1 ∧
      (NagiosReporter.init args today).book_cost_item ⟨l2⟩ = Except.ok s2 ∧
      s1.do_report = s2.do_report ∧
      s1.reportedCost = max s1.todayTotal s1.yesterdayTotal ∧
      s1.do_report.status =
        (if args.critical ≤ max s1.todayTotal s1.yesterdayTotal then NagiosExitCodes.CRITICAL
         else if args.warning ≤ max s1.todayTotal s1.yesterdayTotal then NagiosExitCodes.WARNING
         else NagiosExitCodes.OK) := by
  have hne : (NagiosReporter.init args today).yesterday ≠ (NagiosReporter.init args today).today := by
    show today - 1 ≠ today
    omega
  have hdates2 : ∀ rd ∈ l2, rd.timePeriod.start = today ∨ rd.timePeriod.start = today - 1 :=
    fun rd hm => hdates rd (hperm.symm.subset hm)
  have hb1 := book_cost_item_ok (NagiosReporter.init args today) ⟨l1⟩ hne hdates
  have hb2 := book_cost_item_ok (NagiosReporter.init args today) ⟨l2⟩ hne hdates2
  have hsums : bookedState (NagiosReporter.init args today) l1
      = bookedState (NagiosReporter.init args today) l2 := by
    simp only [bookedState, chargesOn_perm _ hperm, discountsOn_perm _ hperm]
  refine ⟨bookedState (NagiosReporter.init args today) l1,
    bookedState (NagiosReporter.init args today) l2, hb1, hb2, by rw [hsums], rfl, ?_⟩
  exact do_report_status (bookedState (NagiosReporter.init args today) l1)

/-- Two valid-dated entries. -/
def C4entryToday : ReportData := { timePeriod := { start := 20000 }, charge := 500, discount := 0 }

/-- Two valid-dated entries. -/
def C4entryYesterday : ReportData :=
  { timePeriod := { start := 19999 }, charge := 200, discount := 0 }

/-- Witness for C4 at a two-entry report and its transposition. -/
theorem C4_reported_cost_max_permutation_invariant_witness :
    ∃ s1 s2,
      (NagiosReporter.init exampleArgs 20000).book_cost_item
        ⟨[C4entryToday, C4entryYesterday]⟩ = Except.ok s1 ∧
      (NagiosReporter.init exampleArgs 20000).book_cost_item
        ⟨[C4entryYesterday, C4entryToday]⟩ = Except.ok s2 ∧
      s1.do_report = s2.do_report ∧
      s1.reportedCost = max s1.todayTotal s1.yesterdayTotal ∧
      s1.do_report.status =
        (if exampleArgs.critical ≤ max s1.todayTotal s1.yesterdayTotal then
          NagiosExitCodes.CRITICAL
         else if exampleArgs.warning ≤ max s1.todayTotal s1.yesterdayTotal then
          NagiosExitCodes.WARNING
         else NagiosExitCodes.OK) :=
  C4_reported_cost_max_permutation_invariant exampleArgs 20000
    [C4entryToday, C4entryYesterday] [C4entryYesterday, C4entryToday]
    (List.Perm.swap C4entryYesterday C4entryToday [])
    (by with_unfolding_all decide)

/-! Claim C10 -/

/-- C10: booking a cost item whose records are all dated today changes
only the two today accumulators, leaving the yesterday accumulators, the
stored dates and the configuration untouched; symmetrically for records
all dated yesterday (the reference dates differ on every reporter the
program builds, which the second part assumes). -/
theorem C10_booking_frame (s : NagiosReporter) (item : CostApiItemWithDetails) :
    ((∀ rd ∈ item.reportData, rd.timePeriod.start = s.today) →
      ∃ t, s.book_cost_item item = Except.ok t ∧
        t.yesterday_cost = s.yesterday_cost ∧
        t.yesterday_discounted_cost = s.yesterday_discounted_cost ∧
        t.args = s.args ∧ t.today = s.today ∧ t.yesterday = s.yesterday) ∧
    (s.yesterday ≠ s.today →
      (∀ rd ∈ item.reportData, rd.timePeriod.start = s.yesterday) →
      ∃ t, s.book_cost_item item = Except.ok t ∧
        t.today_cost = s.today_cost ∧
        t.today_discounted_cost = s.today_discounted_cost ∧
        t.args = s.args ∧ t.today = s.today ∧ t.yesterday = s.yesterday) := by
  constructor
  · intro hdates
    exact ⟨_, foldlM_book_today item.reportData s hdates, rfl, rfl, rfl, rfl, rfl⟩
  · intro hne hdates
    exact ⟨_, foldlM_book_yesterday item.reportData s hne hdates, rfl, rfl, rfl, rfl, rfl⟩

/-- An all-today report. -/
def C10todayItem : CostApiItemWithDetails :=
  { reportData := [ { timePeriod := { start := 20000 }, charge := 300, discount := 10 },
                    { timePeriod := { start := 20000 }, charge := 700, discount := 0 } ] }

/-- An all-yesterday report. -/
def C10yesterdayItem : CostApiItemWithDetails :=
  { reportData := [ { timePeriod := { start := 19999 }, charge := 40, discount := 5 } ] }

/-- Witness for C10 on concrete all-today and all-yesterday reports. -/
theorem C10_booking_frame_witness :
    (∃ t, C1state.book_cost_item C10todayItem = Except.ok t ∧
      t.yesterday_cost = C1state.yesterday_cost ∧
      t.yesterday_discounted_cost = C1state.yesterday_discounted_cost ∧
      t.args = C1state.args ∧ t.today = C1state.today ∧ t.yesterday = C1state.yesterday) ∧
    (∃ t, C1state.book_cost_item C10yesterdayItem = Except.ok t ∧
      t.today_cost = C1state.today_cost ∧
      t.today_discounted_cost = C1state.today_discounted_cost ∧
      t.args = C1state.args ∧ t.today = C1state.today ∧ t.yesterday = C1state.yesterday) :=
  ⟨(C10_booking_frame C1state C10todayItem).1 (by with_unfolding_all decide),
   (C10_booking_frame C1state C10yesterdayItem).2 (by with_unfolding_all decide)
     (by with_unfolding_all decide)⟩

/-! Claim C6 -/

/-- C6: validation checks warning ≥ 0 first and critical > warning second;
either failure carries the message naming the violated constraint, and a
run with invalid thresholds never reaches `get_cost`, so no credential
loading or cost query happens before or after the failure. -/
theorem C6_validation_order_no_network (raw : RawArguments)
    (cost_result : Except PyExc CostApiItemWithDetails) (today : Int) :
    (raw.warning < 0 →
      get_arguments raw =
        Except.error (PyExc.valueError ("Warning threshold must be >= 0.0"))) ∧
    (0 ≤ raw.warning → raw.critical ≤ raw.warning →
      get_arguments raw =
        Except.error (PyExc.valueError ("Critical threshold must be > warning threshold"))) ∧
    ((raw.warning < 0 ∨ raw.critical ≤ raw.warning) →
      (pluginMain raw cost_result today).get_cost_called = false) := by
  refine ⟨?_, ?_, ?_⟩
  · intro h
    rw [get_arguments_eq, if_pos h]
  · intro h0 h1
    rw [get_arguments_eq, if_neg (not_lt.mpr h0), if_pos h1]
  · intro h
    have hga : ∃ e, get_arguments raw = Except.error (PyExc.valueError e) := by
      by_cases h0 : raw.warning < 0
      · exact ⟨_, by rw [get_arguments_eq, if_pos h0]⟩
      · rcases h with h | h
        · exact absurd h h0
        · exact ⟨_, by rw [get_arguments_eq, if_neg h0, if_pos h]⟩
    rcases hga with ⟨e, hga⟩
    rw [pluginMain_args_error raw cost_result today _ hga]
    rfl

/-- Invalid thresholds: negative warning. -/
def C6rawNegative : RawArguments :=
  { customer_account_id := "A"
    project_id := "P"
    warning := -1
    critical := 50
    sa_key_json := "sa-key.json"
    skip_discount := false }

/-- Invalid thresholds: critical below warning. -/
def C6rawInverted : RawArguments :=
  { customer_account_id := "A"
    project_id := "P"
    warning := 10
    critical := 5
    sa_key_json := "sa-key.json"
    skip_discount := false }

/-- Witness for C6: both violated constraints at concrete inputs, with no
external call made. -/
theorem C6_validation_order_no_network_witness :
    get_arguments C6rawNegative =
      Except.error (PyExc.valueError ("Warning threshold must be >= 0.0")) ∧
    get_arguments C6rawInverted =
      Except.error (PyExc.valueError ("Critical threshold must be > warning threshold")) ∧
    (pluginMain C6rawNegative (Except.ok C10todayItem) 20000).get_cost_called = false :=
  ⟨(C6_validation_order_no_network C6rawNegative (Except.ok C10todayItem) 20000).1
      (by with_unfolding_all decide),
   (C6_validation_order_no_network C6rawInverted (Except.ok C10todayItem) 20000).2.1
      (by with_unfolding_all decide) (by with_unfolding_all decide),
   (C6_validation_order_no_network C6rawNegative (Except.ok C10todayItem) 20000).2.2
      (Or.inl (by with_unfolding_all decide))⟩

/-! Claim C9 -/

/-- C9: a failure of either external collaborator (authentication or cost
service) is caught at the top level and reported as the single line
`UNKNOWN: <error message> |` — trailing pipe preserved — with exit code 3,
and no OK/WARNING/CRITICAL or degraded status line is emitted. -/
theorem C9_collaborator_failure_unknown (raw : RawArguments) (today : Int) (m : String)
    (hw : 0 ≤ raw.warning) (hc : raw.warning < raw.critical) :
    pluginMain raw (Except.error (PyExc.authException m)) today =
      { stdout := ["UNKNOWN: " ++ m ++ " |"]
        exit_code := some 3
        uncaught := none
        get_cost_called := true } ∧
    pluginMain raw (Except.error (PyExc.costApiException m)) today =
      { stdout := ["UNKNOWN: " ++ m ++ " |"]
        exit_code := some 3
        uncaught := none
        get_cost_called := true } := by
  have h := get_arguments_ok raw hw hc
  constructor
  · rw [pluginMain_cost_error raw today (PyExc.authException m) _ h]
    rfl
  · rw [pluginMain_cost_error raw today (PyExc.costApiException m) _ h]
    rfl

/-- Witness for C9 at a concrete message and configuration. -/
theorem C9_collaborator_failure_unknown_witness :
    pluginMain exampleRaw (Except.error (PyExc.authException ("bad creds"))) 20000 =
      { stdout := ["UNKNOWN: " ++ "bad creds" ++ " |"]
        exit_code := some 3
        uncaught := none
        get_cost_called := true } ∧
    pluginMain exampleRaw (Except.error (PyExc.costApiException ("bad creds"))) 20000 =
      { stdout := ["UNKNOWN: " ++ "bad creds" ++ " |"]
        exit_code := some 3
        uncaught := none
        get_cost_called := true } :=
  C9_collaborator_failure_unknown exampleRaw 20000 ("bad creds")
    (by with_unfolding_all decide) (by with_unfolding_all decide)

/-! Claim C2 -/

/-- C2 (amended): an entry dated neither today nor yesterday makes
`book_cost_item` raise before any OK/WARNING/CRITICAL status is emitted —
the entry is never silently dropped — but the raised exception is a plain
`Exception`, which `main`'s `except (AuthException, CostApiException)`
clause does not catch: nothing is printed on standard output (in
particular no `UNKNOWN: ... |` line) and no exit code is set by the
program itself; the exception escapes `main` uncaught. -/
theorem C2_unexpected_date_fatal_uncaught (raw : RawArguments)
    (item : CostApiItemWithDetails) (today : Int)
    (hw : 0 ≤ raw.warning) (hc : raw.warning < raw.critical)
    (hbad : ∃ rd ∈ item.reportData,
      rd.timePeriod.start ≠ today ∧ rd.timePeriod.start ≠ today - 1) :
    ∃ m, pluginMain raw (Except.ok item) today =
      { stdout := []
        exit_code := none
        uncaught := some (PyExc.genericException m)
        get_cost_called := true } := by
  have h := get_arguments_ok raw hw hc
  rcases foldlM_book_err item.reportData
      (NagiosReporter.init
        { customer_account_id := raw.customer_account_id
          project_id := raw.project_id
          warning := raw.warning
          critical := raw.critical
          sa_key_json := raw.sa_key_json
          skip_discount := raw.skip_discount } today) hbad with ⟨m, hm⟩
  have hm2 : (NagiosReporter.init
      { customer_account_id := raw.customer_account_id
        project_id := raw.project_id
        warning := raw.warning
        critical := raw.critical
        sa_key_json := raw.sa_key_json
        skip_discount := raw.skip_discount } today).book_cost_item item =
      Except.error (PyExc.genericException m) := hm
  refine ⟨m, ?_⟩
  rw [pluginMain_ok raw _ item today h, hm2]
  rfl

/-- A report whose single entry is dated ten days before today. -/
def C2item : CostApiItemWithDetails :=
  { reportData := [ { timePeriod := { start := 19990 }, charge := 100, discount := 0 } ] }

/-- C2 counterexample: with valid thresholds 10/50 and an entry dated
19990 against today 20000, the run prints nothing on standard output and
sets no exit code — in particular not the claimed `UNKNOWN: ... |` line
with exit code 3 — because the unexpected-date `Exception` escapes `main`
uncaught. -/
theorem C2_counterexample :
    (pluginMain exampleRaw (Except.ok C2item) 20000).stdout = [] ∧
    (pluginMain exampleRaw (Except.ok C2item) 20000).exit_code ≠ some 3 ∧
    (pluginMain exampleRaw (Except.ok C2item) 20000).uncaught =
      some (PyExc.genericException ("CostApi returned unexpected date: 19990")) := by
  with_unfolding_all decide

/-- Witness for C2's amended theorem at the same concrete input. -/
theorem C2_unexpected_date_fatal_uncaught_witness :
    ∃ m, pluginMain exampleRaw (Except.ok C2item) 20000 =
      { stdout := []
        exit_code := none
        uncaught := some (PyExc.genericException m)
        get_cost_called := true } :=
  C2_unexpected_date_fatal_uncaught exampleRaw C2item 20000
    (by with_unfolding_all decide) (by with_unfolding_all decide)
    (by with_unfolding_all decide)

/-! Claim C5 -/

/-- C5 (amended): thresholds violating validation (warning < 0 or
critical ≤ warning) do terminate the run before any query, but not with
exit code 3: `get_arguments` raises `ValueError`, which `main`'s
`except (AuthException, CostApiException)` clause does not catch, so the
exception escapes `main` with nothing printed and no exit code set by the
program itself (CPython then aborts with a traceback and its default
exit code 1 for unhandled exceptions, not 3). -/
theorem C5_invalid_thresholds_uncaught (raw : RawArguments)
    (cost_result : Except PyExc CostApiItemWithDetails) (today : Int)
    (h : raw.warning < 0 ∨ raw.critical ≤ raw.warning) :
    ∃ m, pluginMain raw cost_result today =
      { stdout := []
        exit_code := none
        uncaught := some (PyExc.valueError m)
        get_cost_called := false } := by
  by_cases h0 : raw.warning < 0
  · refine ⟨"Warning threshold must be >= 0.0", ?_⟩
    have hga : get_arguments raw =
        Except.error (PyExc.valueError ("Warning threshold must be >= 0.0")) := by
      rw [get_arguments_eq, if_pos h0]
    rw [pluginMain_args_error raw cost_result today _ hga]
    rfl
  · rcases h with h | h
    · exact absurd h h0
    · refine ⟨"Critical threshold must be > warning threshold", ?_⟩
      have hga : get_arguments raw =
          Except.error (PyExc.valueError ("Critical threshold must be > warning threshold")) := by
        rw [get_arguments_eq, if_neg h0, if_pos h]
      rw [pluginMain_args_error raw cost_result today _ hga]
      rfl

/-- C5 counterexample: with warning = -1 the run prints nothing and sets
no exit code — in particular not the claimed exit code 3 — because the
`ValueError` from validation escapes `main` uncaught. -/
theorem C5_counterexample :
    (pluginMain C6rawNegative (Except.ok C2item) 20000).exit_code ≠ some 3 ∧
    (pluginMain C6rawNegative (Except.ok C2item) 20000).stdout = [] ∧
    (pluginMain C6rawNegative (Except.ok C2item) 20000).uncaught =
      some (PyExc.valueError ("Warning threshold must be >= 0.0")) := by
  with_unfolding_all decide

/-- Witness for C5's amended theorem at the same concrete input. -/
theorem C5_invalid_thresholds_uncaught_witness :
    ∃ m, pluginMain C6rawNegative (Except.ok C2item) 20000 =
      { stdout := []
        exit_code := none
        uncaught := some (PyExc.valueError m)
        get_cost_called := false } :=
  C5_invalid_thresholds_uncaught C6rawNegative (Except.ok C2item) 20000
    (Or.inl (by with_unfolding_all decide))

/-! Claim C7 -/

/-- C7 (amended): the success path emits exactly one line
`<STATUS_NAME>: <message> | <perf-data>`, where the message is
`Daily costs {reportedCost:.2f} EUR >= {threshold} EUR` for WARNING and
CRITICAL — with the triggering threshold followed by a trailing ` EUR`
that the claim's template omits — and `Daily costs {reportedCost:.2f} EUR`
for OK. -/
theorem C7_status_line_format (s : NagiosReporter) :
    s.do_report.stdout =
      s.do_report.status.name ++ ": " ++
        (if s.do_report.status = NagiosExitCodes.CRITICAL then
          "Daily costs " ++ format2 s.reportedCost ++ " EUR >= " ++
            pyFloatRepr s.args.critical ++ " EUR"
        else if s.do_report.status = NagiosExitCodes.WARNING then
          "Daily costs " ++ format2 s.reportedCost ++ " EUR >= " ++
            pyFloatRepr s.args.warning ++ " EUR"
        else "Daily costs " ++ format2 s.reportedCost ++ " EUR") ++
      " | " ++ s.perf_data := by
  by_cases h1 : s.args.critical ≤ s.reportedCost
  · rw [do_report_eq, if_pos h1]
    rfl
  · by_cases h2 : s.args.warning ≤ s.reportedCost
    · rw [do_report_eq, if_neg h1, if_pos h2]
      rfl
    · rw [do_report_eq, if_neg h1, if_neg h2]
      rfl

/-- A reporter that has booked a single today charge of 5200 cents
against the default thresholds. -/
def C7state : NagiosReporter :=
  { args := exampleArgs
    today := 20000
    yesterday := 19999
    today_cost := 52
    today_discounted_cost := 0
    yesterday_cost := 0
    yesterday_discounted_cost := 0 }

/-- C7 counterexample: at reported cost 52.00 with critical threshold
50.0 the emitted message is `Daily costs 52.00 EUR >= 50.0 EUR`, not the
claimed exact `Daily costs 52.00 EUR >= 50.0`: the threshold is followed
by ` EUR` in the f-string of the source. -/
theorem C7_counterexample :
    C7state.do_report.stdout =
      "CRITICAL: Daily costs 52.00 EUR >= 50.0 EUR | yesterday_cost=0.00;;; " ++
        "yesterday_discounted_cost=0.00;;; today_cost=52.00;;; today_discounted_cost=0.00;;;" ∧
    C7state.do_report.stdout ≠
      "CRITICAL: Daily costs 52.00 EUR >= 50.0 | yesterday_cost=0.00;;; " ++
        "yesterday_discounted_cost=0.00;;; today_cost=52.00;;; today_discounted_cost=0.00;;;" := by
  with_unfolding_all decide

/-! Claim C8 -/

/-- The single-space separator `_finish` joins the perf-data tokens with. -/
def sepSpace : String := " "

/-- C8: for every booked report, the performance data is exactly the four
`key=value;;;` tokens joined by single spaces, in the order
yesterday_cost, yesterday_discounted_cost, today_cost,
today_discounted_cost, each value being that day's raw major-unit sum —
no discount folding, no max selection — rendered with 2 decimal places,
and that perf-data string terminates the emitted status line after the
pipe. -/
theorem C8_perf_data_tokens (args : ParsedArguments) (today : Int)
    (item : CostApiItemWithDetails)
    (hdates : ∀ rd ∈ item.reportData,
      rd.timePeriod.start = today ∨ rd.timePeriod.start = today - 1) :
    ∃ s, (NagiosReporter.init args today).book_cost_item item = Except.ok s ∧
      s.perf_data = String.intercalate sepSpace
        ["yesterday_cost=" ++ format2 (chargesOn (today - 1) item.reportData) ++ ";;;",
         "yesterday_discounted_cost=" ++
           format2 (discountsOn (today - 1) item.reportData) ++ ";;;",
         "today_cost=" ++ format2 (chargesOn today item.reportData) ++ ";;;",
         "today_discounted_cost=" ++ format2 (discountsOn today item.reportData) ++ ";;;"] ∧
      ∃ msg, s.do_report.stdout =
        s.do_report.status.name ++ ": " ++ msg ++ " | " ++ s.perf_data := by
  have hne : (NagiosReporter.init args today).yesterday
      ≠ (NagiosReporter.init args today).today := by
    show today - 1 ≠ today
    omega
  refine ⟨bookedState (NagiosReporter.init args today) item.reportData,
    book_cost_item_ok _ item hne hdates, ?_, do_report_stdout_shape _⟩
  simp only [NagiosReporter.perf_data, bookedState, NagiosReporter.init, zero_add, sepSpace]

/-- Witness for C8 at a concrete two-entry report. -/
theorem C8_perf_data_tokens_witness :
    ∃ s, (NagiosReporter.init exampleArgs 20000).book_cost_item
        ⟨[C4entryToday, C4entryYesterday]⟩ = Except.ok s ∧
      s.perf_data = String.intercalate sepSpace
        ["yesterday_cost=" ++
           format2 (chargesOn (20000 - 1) [C4entryToday, C4entryYesterday]) ++ ";;;",
         "yesterday_discounted_cost=" ++
           format2 (discountsOn (20000 - 1) [C4entryToday, C4entryYesterday]) ++ ";;;",
         "today_cost=" ++ format2 (chargesOn 20000 [C4entryToday, C4entryYesterday]) ++ ";;;",
         "today_discounted_cost=" ++
           format2 (discountsOn 20000 [C4entryToday, C4entryYesterday]) ++ ";;;"] ∧
      ∃ msg, s.do_report.stdout =
        s.do_report.status.name ++ ": " ++ msg ++ " | " ++ s.perf_data :=
  C8_perf_data_tokens exampleArgs 20000 ⟨[C4entryToday, C4entryYesterday]⟩
    (by with_unfolding_all decide)

/-! Claim C3 -/

/-- The spec's third example entry: 100 cents charge, 400 cents discount,
dated today. -/
def C3entry : ReportData := { timePeriod := { start := 20000 }, charge := 100, discount := 400 }

/-- The same configuration with the skip-discount flag set. -/
def C3argsSkip : ParsedArguments := { exampleArgs with skip_discount := true }

/-- The reporter state after booking `C3entry` with discounts folded. -/
def C3stateFold : NagiosReporter :=
  { args := exampleArgs
    today := 20000
    yesterday := 19999
    today_cost := 1
    today_discounted_cost := 4
    yesterday_cost := 0
    yesterday_discounted_cost := 0 }

/-- The same totals under the skip-discount configuration. -/
def C3stateSkip : NagiosReporter := { C3stateFold with args := C3argsSkip }

deriving instance DecidableEq for Except

/-- C3 (code bug): booking divides each charge and discount by exactly
100, and `do_report` branches on `args.skip_discount` — flag unset gives
`total = charge + discount` (here 1 + 4 = 5), flag set gives
`total = charge` (here 1), changing the report — but `skip_discount` is
not among the fields declared on the source's pydantic model
`ParsedArguments`, whose default handling silently drops the extra
argparse value, so the resolved configuration carries no such flag and the
attribute access `self.args.skip_discount` in `do_report` raises
`AttributeError` at runtime. -/
theorem C3_skip_discount_flag_bug :
    ("skip_discount" ∉ parsedArgumentsPydanticFields) ∧
    (NagiosReporter.init exampleArgs 20000).book_cost_item ⟨[C3entry]⟩ =
      Except.ok C3stateFold ∧
    C3stateFold.today_cost = 1 ∧
    C3stateFold.today_discounted_cost = 4 ∧
    C3stateFold.todayTotal = 5 ∧
    C3stateSkip.todayTotal = 1 ∧
    C3stateFold.do_report ≠ C3stateSkip.do_report := by
  refine ⟨by decide, ?_, by with_unfolding_all decide, by with_unfolding_all decide,
    by with_unfolding_all decide, by with_unfolding_all decide, by with_unfolding_all decide⟩
  have hb := foldlM_book_today [C3entry] (NagiosReporter.init exampleArgs 20000)
    (by with_unfolding_all decide)
  have hb2 : (NagiosReporter.init exampleArgs 20000).book_cost_item ⟨[C3entry]⟩ =
      Except.ok
        { NagiosReporter.init exampleArgs 20000 with
          today_cost := (NagiosReporter.init exampleArgs 20000).today_cost +
            chargesOn (NagiosReporter.init exampleArgs 20000).today [C3entry]
          today_discounted_cost :=
            (NagiosReporter.init exampleArgs 20000).today_discounted_cost +
              discountsOn (NagiosReporter.init exampleArgs 20000).today [C3entry] } := hb
  rw [hb2]
  congr 1
  simp only [NagiosReporter.init, chargesOn_cons, discountsOn_cons, chargesOn_nil,
    discountsOn_nil, C3entry, C3stateFold, exampleArgs, CENTS_PER_EURO]
  norm_num
